import Mathlib

/-!
Verification development for the money-movement core of the Fonlok escrow
backend (Express + PostgreSQL).

The JavaScript source is shallowly embedded: every database table is a list of
rows inside a single world structure `W`, every SQL statement becomes a pure
list operation on `W`, and every call of the mobile-money gateway's withdraw
endpoint is recorded by appending a `Transfer` to `W.transfers`.  A conditional
`UPDATE ... WHERE ... RETURNING` is modelled by `updateWhere`, which returns
the updated table together with the number of affected rows, mirroring the
affected-row-count checks the routes perform.  Emails, logging, push
notifications and PDF receipts are external best-effort collaborators that
touch no table; they are omitted from the state.

Monetary amounts are the exact integers stored in the database.  The source's
`Math.floor(gross * 0.02)` and `Math.floor(gross * 0.005)` on integral XAF
amounts are embedded as the exact floors `gross * 2 / 100` and
`gross * 5 / 1000` in natural-number arithmetic (identical values for all
representable invoice amounts).
-/

namespace Fonlok

/-- A row of the `confirmation_codes` table; `code_id` is the invoice id, and
`is_used` is the single-writer settlement lock. -/
structure CodeRow where
  code_id : Nat
  code : String
  verification_token : String
  userid : Nat
  is_used : Bool
deriving Repr, DecidableEq

/-- A row of the `invoices` table (fields used by the money-movement core). -/
structure InvoiceRow where
  id : Nat
  invoicenumber : String
  userid : Nat
  amount : Nat
  status : String
deriving Repr, DecidableEq

/-- A row of the `users` table (fields used by the money-movement core:
`phone` is the payout destination, `referred_by` and `referral_balance`
drive the referral program). -/
structure UserRow where
  id : Nat
  phone : String
  referred_by : Option Nat
  referral_balance : Int
deriving Repr, DecidableEq

/-- A row of the `payments` table. -/
structure PaymentRow where
  invoiceid : Nat
  providerpaymentid : String
  amount : Nat
  status : String
deriving Repr, DecidableEq

/-- A row of the append-only `payouts` ledger. -/
structure PayoutRow where
  userid : Nat
  amount : Nat
  method : String
  status : String
  invoice_id : Nat
  invoice_number : String
deriving Repr, DecidableEq

/-- A row of `referral_earnings`; `invoice_number` carries a UNIQUE
constraint (added by the startup migration in the server bootstrap file),
backing the `ON CONFLICT (invoice_number) DO NOTHING` inserts. -/
structure EarningRow where
  referrer_userid : Nat
  referred_userid : Nat
  invoice_number : String
  invoice_amount : Nat
  earned_amount : Nat
deriving Repr, DecidableEq

/-- A row of `invoice_milestones`; `release_token` carries a UNIQUE
constraint (migrate_milestones.js). -/
structure MilestoneRow where
  id : Nat
  invoice_id : Nat
  invoice_number : String
  milestone_number : Nat
  label : String
  amount : Nat
  status : String
  release_token : Option String
deriving Repr, DecidableEq

/-- A row of the `disputes` table. -/
structure DisputeRow where
  admin_token : String
  invoicenumber : String
  status : String
deriving Repr, DecidableEq

/-- A row of the `guests` table (the unauthenticated buyer of an invoice). -/
structure GuestRow where
  invoicenumber : String
  email : String
  momo_number : Option String
  chat_token : Option String
deriving Repr, DecidableEq

/-- A row of `referral_withdrawals`. -/
structure WithdrawalRow where
  id : Nat
  userid : Nat
  amount : Int
  momo_number : String
  status : String
deriving Repr, DecidableEq

/-- One call of the payment-rail gateway's withdraw endpoint (Campay).  The
gateway is external; the ledger of attempted transfers lets the theorems count
how many times money actually moved. -/
structure Transfer where
  amount : Int
  dest : String
  reference : String
deriving Repr, DecidableEq

/-- The world: every table of the relational store, the set of processed
payment references (idempotency markers), the chat rooms (by invoice number),
and the ledger of gateway transfer calls. -/
structure W where
  invoices : List InvoiceRow := []
  users : List UserRow := []
  confirmation_codes : List CodeRow := []
  payments : List PaymentRow := []
  payouts : List PayoutRow := []
  referral_earnings : List EarningRow := []
  invoice_milestones : List MilestoneRow := []
  disputes : List DisputeRow := []
  guests : List GuestRow := []
  processed_payments : List String := []
  referral_withdrawals : List WithdrawalRow := []
  chats : List String := []
  transfers : List Transfer := []
deriving Repr, DecidableEq

/-- `UPDATE t SET ... WHERE p` as a pure operation: the updated table plus the
number of affected rows (the `RETURNING`-row count the routes test). -/
def updateWhere {α : Type} (p : α → Bool) (f : α → α) (l : List α) :
    List α × Nat :=
  (l.map fun a => if p a then f a else a, l.countP p)

/-- Fee block of `executePayout` (code-based release), Step 3:
totalFee is floor of 2 percent, the referral earning floor of 0.5 percent when
the seller has a referrer, the platform net their difference, and the seller
receives gross minus totalFee.
Returns (totalFee, referralEarning, fonlokNet, sellerReceives). -/
def payoutFees (gross : Nat) (hasReferral : Bool) : Nat × Nat × Nat × Nat :=
  let totalFee := gross * 2 / 100
  let referralEarning := if hasReferral then gross * 5 / 1000 else 0
  (totalFee, referralEarning, totalFee - referralEarning, gross - totalFee)

/-- Fee block of `executePayoutLink` (email-link release), Step 3 — the source
repeats the identical arithmetic. -/
def payoutLinkFees (gross : Nat) (hasReferral : Bool) : Nat × Nat × Nat × Nat :=
  let totalFee := gross * 2 / 100
  let referralEarning := if hasReferral then gross * 5 / 1000 else 0
  (totalFee, referralEarning, totalFee - referralEarning, gross - totalFee)

/-- Fee block of the milestone release route, Step 6 — again the identical
arithmetic, applied to the milestone amount. -/
def milestoneFees (gross : Nat) (hasReferral : Bool) : Nat × Nat × Nat × Nat :=
  let msTotalFee := gross * 2 / 100
  let msReferralEarning := if hasReferral then gross * 5 / 1000 else 0
  (msTotalFee, msReferralEarning, msTotalFee - msReferralEarning,
    gross - msTotalFee)

/-- Fee block of the dispute seller-decision branch (dispute.js) — the same
2 percent / 0.5 percent split. -/
def disputeSellerFees (gross : Nat) (hasReferral : Bool) :
    Nat × Nat × Nat × Nat :=
  let totalFeeD := gross * 2 / 100
  let referralEarningD := if hasReferral then gross * 5 / 1000 else 0
  (totalFeeD, referralEarningD, totalFeeD - referralEarningD,
    gross - totalFeeD)

/-- Modelled from the spec: Step 3 fee split of the Settlement Engine contract,
written from the spec's own words (totalFee, referralShare, platformShare,
seller receives gross minus totalFee), for comparison with the per-path fee
blocks above. -/
def feeSplitSpec (gross : Nat) (hasReferrer : Bool) : Nat × Nat × Nat × Nat :=
  let totalFee := gross * 2 / 100
  let referralShare := if hasReferrer then gross * 5 / 1000 else 0
  let platformShare := totalFee - referralShare
  (totalFee, referralShare, platformShare, gross - totalFee)

/-- Referral-credit step shared verbatim by the three payout paths and the
dispute seller branch: `INSERT INTO referral_earnings ... ON CONFLICT
(invoice_number) DO NOTHING RETURNING id`, and only when the insert produced a
row, `UPDATE users SET referral_balance = referral_balance + earning`. -/
def creditReferral (referrerId referredId : Nat) (invNum : String)
    (gross earning : Nat) (w : W) : W :=
  if w.referral_earnings.any (fun e => e.invoice_number == invNum) then w
  else
    let w1 := { w with referral_earnings := w.referral_earnings ++
      [({ referrer_userid := referrerId, referred_userid := referredId,
           invoice_number := invNum, invoice_amount := gross,
           earned_amount := earning } : EarningRow)] }
    { w1 with users := (updateWhere (fun u : UserRow => u.id == referrerId)
        (fun u => { u with referral_balance := u.referral_balance + earning })
        w1.users).1 }

/-- Is there still an unused confirmation-code row for this invoice?  This is
exactly the success condition of the atomic Step-1 claim. -/
def claimableCode (invoiceId : Nat) (w : W) : Bool :=
  w.confirmation_codes.any fun r => r.code_id == invoiceId && !r.is_used

/-- Step 1 of `executePayout` and `executePayoutLink` in isolation: the atomic
`UPDATE confirmation_codes SET is_used = true WHERE code_id = $1 AND is_used =
false RETURNING code_id`.  `none` means zero rows were affected. -/
def claimCode (invoiceId : Nat) (w : W) : Option W :=
  let u := updateWhere (fun r : CodeRow => r.code_id == invoiceId && !r.is_used)
    (fun r => { r with is_used := true }) w.confirmation_codes
  if u.2 == 0 then none else some { w with confirmation_codes := u.1 }

/-- Can the milestone still be claimed, i.e. is there a row with this id in
status completed?  Success condition of the milestone route's atomic lock. -/
def claimableMilestone (mid : Nat) (w : W) : Bool :=
  w.invoice_milestones.any fun m => m.id == mid && m.status == "completed"

/-- Step 5 of the milestone release route in isolation: the atomic
`UPDATE invoice_milestones SET status = 'released', released_at = NOW(),
release_token = NULL WHERE id = $1 AND status = 'completed' RETURNING id`. -/
def claimMilestone (mid : Nat) (w : W) : Option W :=
  let u := updateWhere (fun m : MilestoneRow => m.id == mid && m.status == "completed")
    (fun m => { m with status := "released", release_token := none })
    w.invoice_milestones
  if u.2 == 0 then none else some { w with invoice_milestones := u.1 }

/-- Errors thrown by the shared payout core. -/
inductive SettleErr where
  | alreadyProcessed
  | invoiceNotFound
  | sellerNotFound
deriving Repr, DecidableEq

/-- `executePayout(invoiceId)` — the shared payout core of the code-based
release.  Step 1 is the atomic claim; a zero-row result throws before any
money moves.  Then: fetch invoice and seller, determine the referrer, compute
the fee split, call the gateway withdraw, append the payout row, mark the
invoice completed, and credit the referral idempotently. -/
def executePayout (invoiceId : Nat) (w : W) : W × Except SettleErr Unit :=
  match claimCode invoiceId w with
  | none => (w, .error .alreadyProcessed)
  | some w1 =>
    match w1.invoices.find? fun i => i.id == invoiceId with
    | none => (w1, .error .invoiceNotFound)
    | some inv =>
      match w1.users.find? fun u => u.id == inv.userid with
      | none => (w1, .error .sellerNotFound)
      | some seller =>
        let referrerId := seller.referred_by
        let fees := payoutFees inv.amount referrerId.isSome
        let referralEarning := fees.2.1
        let sellerReceives := fees.2.2.2
        let w2 := { w1 with transfers := w1.transfers ++
          [({ amount := (sellerReceives : Int), dest := seller.phone,
              reference := inv.invoicenumber } : Transfer)] }
        let w3 := { w2 with payouts := w2.payouts ++
          [({ userid := inv.userid, amount := sellerReceives,
              method := "Mobile Money", status := "paid",
              invoice_id := invoiceId,
              invoice_number := inv.invoicenumber } : PayoutRow)] }
        let w4 := { w3 with invoices := (updateWhere (fun i : InvoiceRow => i.id == invoiceId)
          (fun i => { i with status := "completed" }) w3.invoices).1 }
        let w5 := match referrerId with
          | some rid =>
            if 0 < referralEarning then
              creditReferral rid inv.userid inv.invoicenumber inv.amount
                referralEarning w4
            else w4
          | none => w4
        (w5, .ok ())

/-- `executePayoutLink(invoiceId)` — the shared payout core of the email-link
release.  The source duplicates `executePayout` verbatim (same atomic lock,
same fee arithmetic, same writes; only log text differs), so the embedding
shares the body. -/
def executePayoutLink : Nat → W → W × Except SettleErr Unit :=
  executePayout

/-- `POST /release-funds` (Method 1, code-based release).  The observable
response is the HTTP status together with the exact message the route sends.
Both request fields are assumed present (the missing-field 400 is pure input
validation). -/
def releaseFunds (code invoiceNumber : String) (w : W) : W × Nat × String :=
  match w.invoices.find? fun i => i.invoicenumber == invoiceNumber with
  | none => (w, 404, "Invoice " ++ invoiceNumber ++ " does not exist.")
  | some inv =>
    if inv.status == "completed" then
      (w, 400, "Invoice " ++ invoiceNumber ++ " has already been paid out.")
    else
      match w.payments.find? fun p => p.invoiceid == inv.id with
      | none => (w, 400, "Invoice " ++ invoiceNumber ++ " has not been paid yet.")
      | some payment =>
        if !(payment.status == "paid") then
          (w, 400, "Invoice " ++ invoiceNumber ++ " has not been paid yet.")
        else
          match w.confirmation_codes.find? fun c => c.code_id == inv.id with
          | none => (w, 404, "No confirmation code found for this invoice.")
          | some codeRow =>
            if codeRow.is_used then
              (w, 400,
                "Invoice " ++ invoiceNumber ++ " has already been paid out.")
            else if !(codeRow.code == code) then
              (w, 401,
                "The code you entered is incorrect. Please ask the buyer for their code.")
            else
              match executePayout inv.id w with
              | (w1, Except.ok _) =>
                (w1, 200,
                  "Payout processed successfully. Funds are on their way to your Mobile Money account.")
              | (w1, Except.error _) =>
                (w1, 500,
                  "An error occurred while processing your payout. Please try again or contact support.")

/-- The pages the two confirmation GET handlers can render. -/
inductive Page where
  | invalidToken
  | linkExpired
  | alreadyReleased
  | notReady
  | confirmPage
deriving Repr, DecidableEq

/-- `GET /verify-payout/:token/:id` — renders the link-release confirmation
page.  Every database access in the handler is a SELECT; the `:id` segment is
only echoed into the form action of the page. -/
def getVerifyPayout (token id : String) (w : W) : W × Page :=
  match w.confirmation_codes.find? fun c => c.verification_token == token with
  | none => (w, .invalidToken)
  | some row =>
    if row.is_used then (w, .linkExpired)
    else
      let _formAction := "/api/verify-payout/" ++ token ++ "/" ++ id
      (w, .confirmPage)

/-- `GET /release-milestone/:token` — renders the milestone-release
confirmation page; again, SELECT-only. -/
def getReleaseMilestone (token : String) (w : W) : W × Page :=
  match w.invoice_milestones.find? fun m => m.release_token == some token with
  | none => (w, .invalidToken)
  | some ms =>
    if ms.status == "released" then (w, .alreadyReleased)
    else if !(ms.status == "completed") then (w, .notReady)
    else (w, .confirmPage)

/-- Outcomes of `POST /release-milestone/:token`. -/
inductive MsRes where
  | invalidLink
  | alreadyReleased
  | notReady
  | invoiceNotFound
  | sellerNotFound
  | alreadyReleasedRace
  | success
deriving Repr, DecidableEq

/-- `POST /release-milestone/:token` (Method 3): find the milestone by its
release token, guard-check its status, load invoice and seller, atomically
claim the milestone (status completed to released, token cleared), then
transfer, record the payout, credit the referral, and mark the invoice
completed once no unreleased milestone remains. -/
def releaseMilestonePost (token : String) (w : W) : W × MsRes :=
  match w.invoice_milestones.find? fun m => m.release_token == some token with
  | none => (w, .invalidLink)
  | some ms =>
    if ms.status == "released" then (w, .alreadyReleased)
    else if !(ms.status == "completed") then (w, .notReady)
    else
      match w.invoices.find? fun i => i.id == ms.invoice_id with
      | none => (w, .invoiceNotFound)
      | some inv =>
        match w.users.find? fun u => u.id == inv.userid with
        | none => (w, .sellerNotFound)
        | some seller =>
          match claimMilestone ms.id w with
          | none => (w, .alreadyReleasedRace)
          | some w1 =>
            let fees := milestoneFees ms.amount seller.referred_by.isSome
            let msReferralEarning := fees.2.1
            let sellerReceives := fees.2.2.2
            let w2 := { w1 with transfers := w1.transfers ++
              [({ amount := (sellerReceives : Int), dest := seller.phone,
                  reference := "milestone-" ++ toString ms.id } : Transfer)] }
            let w3 := { w2 with payouts := w2.payouts ++
              [({ userid := inv.userid, amount := sellerReceives,
                  method := "Mobile Money", status := "paid",
                  invoice_id := inv.id,
                  invoice_number := inv.invoicenumber } : PayoutRow)] }
            let w4 := match seller.referred_by with
              | some rid =>
                if 0 < msReferralEarning then
                  creditReferral rid inv.userid
                    (inv.invoicenumber ++ "-ms" ++ toString ms.id)
                    ms.amount msReferralEarning w3
                else w3
              | none => w3
            let remaining := w4.invoice_milestones.countP fun m =>
              m.invoice_id == ms.invoice_id && !(m.status == "released")
            let w5 :=
              if remaining == 0 then
                { w4 with invoices :=
                  (updateWhere (fun i : InvoiceRow => i.id == ms.invoice_id)
                    (fun i => { i with status := "completed" }) w4.invoices).1 }
              else w4
            (w5, .success)

/-- Outcomes of `PATCH /milestone/:milestone_id/complete`. -/
inductive CompleteRes where
  | notFound
  | wrongStatus
  | prevNotReleased
  | noBuyer
  | crashed
  | ok
deriving Repr, DecidableEq

/-- `PATCH /milestone/:milestone_id/complete` — the seller marks a milestone
complete.  `newTok` stands for the freshly generated random release token.
When the parent invoice row is missing, the handler still performs the status
UPDATE and then throws while building the buyer email (caught as a 500), which
the `crashed` outcome records. -/
def completeMilestone (mid : Nat) (newTok : String) (w : W) : W × CompleteRes :=
  match w.invoice_milestones.find? fun m => m.id == mid with
  | none => (w, .notFound)
  | some ms =>
    if !(ms.status == "pending") then (w, .wrongStatus)
    else if ms.milestone_number > 1 &&
        (w.invoice_milestones.any fun m =>
          m.invoice_id == ms.invoice_id &&
          m.milestone_number < ms.milestone_number &&
          !(m.status == "released")) then
      (w, .prevNotReleased)
    else
      let invOpt := w.invoices.find? fun i => i.id == ms.invoice_id
      match w.guests.find? fun g => g.invoicenumber == ms.invoice_number with
      | none => (w, .noBuyer)
      | some _ =>
        let w1 := { w with invoice_milestones :=
          (updateWhere (fun m : MilestoneRow => m.id == mid)
            (fun m => { m with status := "completed",
                               release_token := some newTok })
            w.invoice_milestones).1 }
        match invOpt with
        | none => (w1, .crashed)
        | some _ => (w1, .ok)

/-- Outcomes of `processSuccessfulPayment`. -/
inductive PayRes where
  | done
  | already_done
  | no_payment
deriving Repr, DecidableEq

/-- `processSuccessfulPayment(paymentUUID)` — shared by the webhook and the
poll endpoint.  The atomic idempotency claim is the conflict-ignoring insert
of the payment reference into `processed_payments`; a zero-row insert returns
already_done with no further work.  `code`, `tok` and `chatTok` stand for the
random credentials generated on this call (the collision-retry loop of Step 5
regenerates until the insert succeeds; its final successful pair is what the
parameters denote). -/
def processSuccessfulPayment (ref code tok chatTok : String) (w : W) :
    W × PayRes :=
  if w.processed_payments.contains ref then (w, .already_done)
  else
    let w1 := { w with processed_payments := w.processed_payments ++ [ref] }
    match w1.payments.find? fun p => p.providerpaymentid == ref with
    | none => (w1, .no_payment)
    | some payment =>
      let invoiceId := payment.invoiceid
      if w1.confirmation_codes.any fun c => c.code_id == invoiceId then
        (w1, .already_done)
      else
        let w2 := { w1 with payments :=
          (updateWhere (fun p : PaymentRow => p.providerpaymentid == ref)
            (fun p => { p with status := "paid" }) w1.payments).1 }
        let w3 := { w2 with invoices :=
          (updateWhere (fun i : InvoiceRow => i.id == invoiceId)
            (fun i => { i with status := "paid" }) w2.invoices).1 }
        match w3.invoices.find? fun i => i.id == invoiceId with
        | none => (w3, .done)
        | some inv =>
          let w4 := { w3 with confirmation_codes := w3.confirmation_codes ++
            [({ code_id := invoiceId, code := code,
                verification_token := tok, userid := inv.userid,
                is_used := false } : CodeRow)] }
          let w5 := { w4 with guests :=
            (updateWhere (fun g : GuestRow => g.invoicenumber == inv.invoicenumber)
              (fun g => { g with chat_token := some chatTok }) w4.guests).1 }
          let w6 :=
            if w5.chats.contains inv.invoicenumber then w5
            else { w5 with chats := w5.chats ++ [inv.invoicenumber] }
          (w6, .done)

/-- Phase A of `POST /dispute/admin/:admin_token/resolve`: the SELECT of the
dispute by its admin token followed by the plain status check.  `none` means
the request is rejected (invalid link, or dispute no longer open) before any
write.  Note that this check is a read, not a conditional update: nothing is
claimed by passing it. -/
def resolveRead (adminToken : String) (w : W) : Option DisputeRow :=
  match w.disputes.find? fun d => d.admin_token == adminToken with
  | none => none
  | some d => if !(d.status == "open") then none else some d

/-- Phase B of the resolve route, seller decision: everything after the status
check, in source order — load invoice and seller, compute the dispute fee
split, call the gateway withdraw, mark the invoice completed, set the dispute
status with an UPDATE keyed on the admin token alone (no `status = 'open'`
predicate), append the payout row and credit the referral.  A missing invoice
or seller row makes the handler throw before any write (caught as a 500). -/
def resolveSellerRest (d : DisputeRow) (adminToken : String) (w : W) :
    W × Bool :=
  match w.invoices.find? fun i => i.invoicenumber == d.invoicenumber with
  | none => (w, false)
  | some inv =>
    match w.users.find? fun u => u.id == inv.userid with
    | none => (w, false)
    | some seller =>
      let fees := disputeSellerFees inv.amount seller.referred_by.isSome
      let referralEarningD := fees.2.1
      let sellerShare := fees.2.2.2
      let w1 := { w with transfers := w.transfers ++
        [({ amount := (sellerShare : Int), dest := seller.phone,
            reference := inv.invoicenumber } : Transfer)] }
      let w2 := { w1 with invoices :=
        (updateWhere (fun i : InvoiceRow => i.id == inv.id)
          (fun i => { i with status := "completed" }) w1.invoices).1 }
      let w3 := { w2 with disputes :=
        (updateWhere (fun x : DisputeRow => x.admin_token == adminToken)
          (fun x => { x with status := "resolved_seller" }) w2.disputes).1 }
      let w4 := { w3 with payouts := w3.payouts ++
        [({ userid := inv.userid, amount := sellerShare,
            method := "Mobile Money", status := "paid",
            invoice_id := inv.id,
            invoice_number := inv.invoicenumber } : PayoutRow)] }
      let w5 := match seller.referred_by with
        | some rid =>
          if 0 < referralEarningD then
            creditReferral rid inv.userid inv.invoicenumber inv.amount
              referralEarningD w4
          else w4
        | none => w4
      (w5, true)

/-- Phase B of the resolve route, buyer decision: refund the buyer their gross
minus the full 2 percent fee to the MoMo number they paid from, mark the
invoice refunded, set the dispute status (again keyed on the admin token
alone), and record the refund as a payout row with the distinguishing method
label.  A missing buyer record or missing MoMo number aborts with a
manual-refund message before any write. -/
def resolveBuyerRest (d : DisputeRow) (adminToken : String) (w : W) :
    W × Bool :=
  match w.invoices.find? fun i => i.invoicenumber == d.invoicenumber with
  | none => (w, false)
  | some inv =>
    match w.guests.find? fun g => g.invoicenumber == inv.invoicenumber with
    | none => (w, false)
    | some buyer =>
      match buyer.momo_number with
      | none => (w, false)
      | some momo =>
        let grossAmountB := inv.amount
        let fonlokFeeB := grossAmountB * 2 / 100
        let refundAmount := grossAmountB - fonlokFeeB
        let w1 := { w with transfers := w.transfers ++
          [({ amount := (refundAmount : Int), dest := momo,
              reference := "refund-" ++ inv.invoicenumber } : Transfer)] }
        let w2 := { w1 with invoices :=
          (updateWhere (fun i : InvoiceRow => i.id == inv.id)
            (fun i => { i with status := "refunded" }) w1.invoices).1 }
        let w3 := { w2 with disputes :=
          (updateWhere (fun x : DisputeRow => x.admin_token == adminToken)
            (fun x => { x with status := "resolved_buyer" }) w2.disputes).1 }
        let w4 := { w3 with payouts := w3.payouts ++
          [({ userid := inv.userid, amount := refundAmount,
              method := "Refund to Buyer", status := "refunded",
              invoice_id := inv.id,
              invoice_number := inv.invoicenumber } : PayoutRow)] }
        (w4, true)

/-- The full sequential resolve handler (one request running alone):
phase A then the decision branch.  The Bool result is whether the resolution
path ran (200) as opposed to a 4xx/5xx rejection. -/
def resolveDispute (adminToken decision : String) (w : W) : W × Bool :=
  match resolveRead adminToken w with
  | none => (w, false)
  | some d =>
    if decision == "seller" then resolveSellerRest d adminToken w
    else if decision == "buyer" then resolveBuyerRest d adminToken w
    else (w, false)

/-- The atomic balance deduction of `POST /referral/withdraw`: a single
conditional UPDATE that subtracts the amount only when the balance suffices
and no withdrawal row of this user is in status pending.  `none` means zero
rows were affected and the route answers with a 400. -/
def withdrawDeduct (userId : Nat) (amount : Int) (w : W) : Option W :=
  let pendingExists := w.referral_withdrawals.any fun r =>
    r.userid == userId && r.status == "pending"
  let u := updateWhere
    (fun x : UserRow =>
      x.id == userId && decide (amount ≤ x.referral_balance) && !pendingExists)
    (fun x => { x with referral_balance := x.referral_balance - amount })
    w.users
  if u.2 == 0 then none else some { w with users := u.1 }

/-- The INSERT of the pending withdrawal row — a separate statement executed
after the deduction succeeded.  `wid` is the serial id the insert returns. -/
def withdrawInsertPending (wid userId : Nat) (amount : Int) (momo : String)
    (w : W) : W :=
  { w with referral_withdrawals := w.referral_withdrawals ++
    [({ id := wid, userid := userId, amount := amount, momo_number := momo,
        status := "pending" } : WithdrawalRow)] }

/-- `POST /referral/withdraw` after input validation: deduct atomically,
insert the pending row, call the gateway; on success mark the row paid, on
gateway failure add the amount back and mark the row failed.  `gatewayOk`
is the outcome of the external Campay call. -/
def withdraw (userId : Nat) (amount : Int) (momo : String) (wid : Nat)
    (gatewayOk : Bool) (w : W) : W × Bool :=
  match withdrawDeduct userId amount w with
  | none => (w, false)
  | some w1 =>
    let w2 := withdrawInsertPending wid userId amount momo w1
    if gatewayOk then
      let w3 := { w2 with transfers := w2.transfers ++
        [({ amount := amount, dest := momo,
            reference := "ref-withdrawal-" ++ toString wid } : Transfer)] }
      ({ w3 with referral_withdrawals :=
        (updateWhere (fun r : WithdrawalRow => r.id == wid)
          (fun r => { r with status := "paid" }) w3.referral_withdrawals).1 },
        true)
    else
      let w3 := { w2 with users :=
        (updateWhere (fun u : UserRow => u.id == userId)
          (fun u => { u with referral_balance := u.referral_balance + amount })
          w2.users).1 }
      ({ w3 with referral_withdrawals :=
        (updateWhere (fun r : WithdrawalRow => r.id == wid)
          (fun r => { r with status := "failed" }) w3.referral_withdrawals).1 },
        false)

/-- The referral balance of a user as the route reads it. -/
def balanceOf (w : W) (userId : Nat) : Int :=
  match w.users.find? fun u => u.id == userId with
  | none => 0
  | some u => u.referral_balance

/-- Number of pending withdrawal rows of a user. -/
def pendingCount (w : W) (userId : Nat) : Nat :=
  w.referral_withdrawals.countP fun r =>
    r.userid == userId && r.status == "pending"

/-- One atomic database event in an interleaved execution: either the
conditional-update claim of one settle caller, or any other single atomic
statement run by the environment (other requests, other tables). -/
inductive Event where
  | claim : Event
  | env : (W → W) → Event

/-- Run an interleaving: each claim event executes the given compare-and-swap
atomically and its caller proceeds only on success; the Nat counts how many
claim events succeeded (each success is one caller that goes on to call the
gateway). -/
def runClaims (cas : W → Option W) : List Event → W → W × Nat
  | [], w => (w, 0)
  | Event.claim :: es, w =>
    match cas w with
    | some w1 =>
      let r := runClaims cas es w1
      (r.1, r.2 + 1)
    | none => runClaims cas es w
  | Event.env f :: es, w => runClaims cas es (f w)

/-- The environment steps of a trace respect the one-way nature of the claim
flag: once the unit is no longer claimable, no environment step makes it
claimable again.  (In the system, nothing ever resets `is_used` to false or a
released milestone back to completed.) -/
def EnvOk (C : W → Bool) (es : List Event) : Prop :=
  ∀ f, Event.env f ∈ es → ∀ w, C w = false → C (f w) = false

theorem updateWhere_kills {α : Type} (p : α → Bool) (f : α → α)
    (hf : ∀ a, p a = true → p (f a) = false) (l : List α) :
    ∀ r ∈ (updateWhere p f l).1, p r = false := by
  intro r hr
  simp only [updateWhere, List.mem_map] at hr
  obtain ⟨a, _, rfl⟩ := hr
  by_cases hpa : p a = true
  · simp [hpa, hf a hpa]
  · simp only [Bool.not_eq_true] at hpa
    simp [hpa]

theorem claimCode_none (id : Nat) (w : W) (h : claimableCode id w = false) :
    claimCode id w = none := by
  have h0 : w.confirmation_codes.countP
      (fun r => r.code_id == id && !r.is_used) = 0 := by
    rw [List.countP_eq_zero]
    intro a ha
    have := List.any_eq_false.mp h a ha
    simpa using this
  simp [claimCode, updateWhere, h0]

theorem claimCode_some_unclaimable (id : Nat) (w w1 : W)
    (h : claimCode id w = some w1) : claimableCode id w1 = false := by
  unfold claimCode at h
  by_cases h0 : (updateWhere (fun r : CodeRow => r.code_id == id && !r.is_used)
      (fun r => { r with is_used := true }) w.confirmation_codes).2 == 0
  · simp [h0] at h
  · simp only [h0, if_false] at h
    cases h
    rw [claimableCode, List.any_eq_false]
    intro r hr
    have := updateWhere_kills (fun r : CodeRow => r.code_id == id && !r.is_used)
      (fun r => { r with is_used := true })
      (fun a ha => by simp) w.confirmation_codes r hr
    simp [this]

theorem claimMilestone_none (mid : Nat) (w : W)
    (h : claimableMilestone mid w = false) : claimMilestone mid w = none := by
  have h0 : w.invoice_milestones.countP
      (fun m => m.id == mid && m.status == "completed") = 0 := by
    rw [List.countP_eq_zero]
    intro a ha
    have := List.any_eq_false.mp h a ha
    simpa using this
  simp [claimMilestone, updateWhere, h0]

theorem claimMilestone_some_unclaimable (mid : Nat) (w w1 : W)
    (h : claimMilestone mid w = some w1) : claimableMilestone mid w1 = false := by
  unfold claimMilestone at h
  by_cases h0 : (updateWhere
      (fun m : MilestoneRow => m.id == mid && m.status == "completed")
      (fun m => { m with status := "released", release_token := none })
      w.invoice_milestones).2 == 0
  · simp [h0] at h
  · simp only [h0, if_false] at h
    cases h
    rw [claimableMilestone, List.any_eq_false]
    intro r hr
    have := updateWhere_kills
      (fun m : MilestoneRow => m.id == mid && m.status == "completed")
      (fun m => { m with status := "released", release_token := none })
      (fun a ha => by simp) w.invoice_milestones r hr
    simp [this]

theorem runClaims_zero (cas : W → Option W) (C : W → Bool)
    (hnone : ∀ w, C w = false → cas w = none) (es : List Event) (w : W)
    (henv : EnvOk C es) (hw : C w = false) :
    (runClaims cas es w).2 = 0 := by
  induction es generalizing w with
  | nil => rfl
  | cons e es ih =>
    cases e with
    | claim =>
      have h1 : cas w = none := hnone w hw
      simp only [runClaims, h1]
      exact ih w (fun f hf => henv f (List.mem_cons_of_mem _ hf)) hw
    | env f =>
      simp only [runClaims]
      exact ih (f w) (fun g hg => henv g (List.mem_cons_of_mem _ hg))
        (henv f (List.mem_cons_self _ _) w hw)

theorem runClaims_le_one (cas : W → Option W) (C : W → Bool)
    (hsome : ∀ w w1, cas w = some w1 → C w1 = false)
    (hnone : ∀ w, C w = false → cas w = none)
    (es : List Event) (w : W) (henv : EnvOk C es) :
    (runClaims cas es w).2 ≤ 1 := by
  induction es generalizing w with
  | nil => exact Nat.zero_le 1
  | cons e es ih =>
    cases e with
    | claim =>
      cases h1 : cas w with
      | none =>
        simp only [runClaims, h1]
        exact ih w (fun f hf => henv f (List.mem_cons_of_mem _ hf))
      | some w1 =>
        have h0 := runClaims_zero cas C hnone es w1
          (fun f hf => henv f (List.mem_cons_of_mem _ hf)) (hsome w w1 h1)
        simp [runClaims, h1, h0]
    | env f =>
      simp only [runClaims]
      exact ih (f w) (fun g hg => henv g (List.mem_cons_of_mem _ hg))

theorem creditReferral_frame (a b : Nat) (n : String) (g e : Nat) (w : W) :
    (creditReferral a b n g e w).confirmation_codes = w.confirmation_codes ∧
    (creditReferral a b n g e w).transfers = w.transfers ∧
    (creditReferral a b n g e w).payouts = w.payouts ∧
    (creditReferral a b n g e w).invoice_milestones = w.invoice_milestones ∧
    (creditReferral a b n g e w).invoices = w.invoices := by
  unfold creditReferral
  split <;> exact ⟨rfl, rfl, rfl, rfl, rfl⟩

theorem creditReferral_codes (a b : Nat) (n : String) (g e : Nat) (w : W) :
    (creditReferral a b n g e w).confirmation_codes = w.confirmation_codes :=
  (creditReferral_frame a b n g e w).1

theorem creditReferral_transfers (a b : Nat) (n : String) (g e : Nat) (w : W) :
    (creditReferral a b n g e w).transfers = w.transfers :=
  (creditReferral_frame a b n g e w).2.1

theorem creditReferral_payouts (a b : Nat) (n : String) (g e : Nat) (w : W) :
    (creditReferral a b n g e w).payouts = w.payouts :=
  (creditReferral_frame a b n g e w).2.2.1

theorem creditReferral_milestones (a b : Nat) (n : String) (g e : Nat) (w : W) :
    (creditReferral a b n g e w).invoice_milestones = w.invoice_milestones :=
  (creditReferral_frame a b n g e w).2.2.2.1

theorem claimCode_some_frame (id : Nat) (w w1 : W)
    (h : claimCode id w = some w1) :
    w1.transfers = w.transfers ∧ w1.payouts = w.payouts ∧
    w1.invoices = w.invoices ∧ w1.users = w.users := by
  unfold claimCode at h
  by_cases h0 : (updateWhere (fun r : CodeRow => r.code_id == id && !r.is_used)
      (fun r => { r with is_used := true }) w.confirmation_codes).2 == 0
  · simp [h0] at h
  · simp only [h0, if_false] at h
    cases h
    exact ⟨rfl, rfl, rfl, rfl⟩

theorem executePayout_already (id : Nat) (w : W)
    (h : claimableCode id w = false) :
    executePayout id w = (w, Except.error SettleErr.alreadyProcessed) := by
  simp [executePayout, claimCode_none id w h]

theorem executePayout_ok (id : Nat) (w w' : W)
    (h : executePayout id w = (w', Except.ok ())) :
    claimableCode id w' = false ∧
    w'.transfers.length = w.transfers.length + 1 ∧
    w'.payouts.length = w.payouts.length + 1 := by
  unfold executePayout at h
  cases hc : claimCode id w with
  | none => simp only [hc] at h; simp at h
  | some w1 =>
    simp only [hc] at h
    cases hi : w1.invoices.find? fun i => i.id == id with
    | none => simp only [hi] at h; simp at h
    | some inv =>
      simp only [hi] at h
      cases hu : w1.users.find? fun u => u.id == inv.userid with
      | none => simp only [hu] at h; simp at h
      | some seller =>
        simp only [hu] at h
        have hframe := claimCode_some_frame id w w1 hc
        have hclaim := claimCode_some_unclaimable id w w1 hc
        cases hr : seller.referred_by with
        | none =>
          simp only [hr] at h
          rw [Prod.mk.injEq] at h
          obtain ⟨hw, -⟩ := h
          subst hw
          refine ⟨?_, ?_, ?_⟩
          · simpa [claimableCode] using hclaim
          · simp [hframe.1]
          · simp [hframe.2.1]
        | some rid =>
          simp only [hr] at h
          by_cases he : 0 <
              (payoutFees inv.amount (Option.some rid).isSome).2.1
          · simp only [he, if_true] at h
            rw [Prod.mk.injEq] at h
            obtain ⟨hw, -⟩ := h
            subst hw
            have hcf := creditReferral_frame rid inv.userid inv.invoicenumber
              inv.amount (payoutFees inv.amount (Option.some rid).isSome).2.1
            refine ⟨?_, ?_, ?_⟩
            · simp only [claimableCode] at hclaim ⊢
              rw [(hcf _).1]
              exact hclaim
            · rw [(hcf _).2.1]
              simp [hframe.1]
            · rw [(hcf _).2.2.1]
              simp [hframe.2.1]
          · simp only [he, if_false] at h
            rw [Prod.mk.injEq] at h
            obtain ⟨hw, -⟩ := h
            subst hw
            refine ⟨?_, ?_, ?_⟩
            · simpa [claimableCode] using hclaim
            · simp [hframe.1]
            · simp [hframe.2.1]

theorem countP_le_one_unique {α : Type} (p : α → Bool) (l : List α)
    (h : l.countP p ≤ 1) {a b : α} (ha : a ∈ l) (hb : b ∈ l)
    (hpa : p a = true) (hpb : p b = true) : a = b := by
  have ha' : a ∈ l.filter p := List.mem_filter.mpr ⟨ha, hpa⟩
  have hb' : b ∈ l.filter p := List.mem_filter.mpr ⟨hb, hpb⟩
  rw [List.countP_eq_length_filter] at h
  cases hf : l.filter p with
  | nil => rw [hf] at ha'; exact absurd ha' (List.not_mem_nil a)
  | cons x xs =>
    cases xs with
    | nil =>
      rw [hf] at ha' hb'
      rw [List.mem_singleton.mp ha', List.mem_singleton.mp hb']
    | cons y ys =>
      rw [hf] at h
      simp at h

theorem claimMilestone_some_frame (mid : Nat) (w w1 : W)
    (h : claimMilestone mid w = some w1) :
    w1.transfers = w.transfers ∧ w1.payouts = w.payouts ∧
    w1.invoices = w.invoices ∧ w1.users = w.users ∧
    w1.invoice_milestones = (updateWhere
      (fun m : MilestoneRow => m.id == mid && m.status == "completed")
      (fun m => { m with status := "released", release_token := none })
      w.invoice_milestones).1 := by
  unfold claimMilestone at h
  by_cases h0 : (updateWhere
      (fun m : MilestoneRow => m.id == mid && m.status == "completed")
      (fun m => { m with status := "released", release_token := none })
      w.invoice_milestones).2 == 0
  · simp [h0] at h
  · simp only [h0, if_false] at h
    cases h
    exact ⟨rfl, rfl, rfl, rfl, rfl⟩

theorem releaseMilestonePost_ok (tok : String) (w w' : W)
    (h : releaseMilestonePost tok w = (w', MsRes.success))
    (huniq : w.invoice_milestones.countP
      (fun m => m.release_token == some tok) ≤ 1) :
    w'.invoice_milestones.find? (fun m => m.release_token == some tok)
        = none ∧
    w'.transfers.length = w.transfers.length + 1 ∧
    w'.payouts.length = w.payouts.length + 1 := by
  unfold releaseMilestonePost at h
  cases hm : w.invoice_milestones.find? fun m => m.release_token == some tok with
  | none => simp only [hm] at h; simp at h
  | some ms =>
    simp only [hm] at h
    by_cases hrel : ms.status == "released"
    · simp [hrel] at h
    · simp only [hrel, Bool.false_eq_true, if_false] at h
      by_cases hcomp : ms.status == "completed"
      · simp only [hcomp, Bool.not_true, Bool.false_eq_true, if_false] at h
        cases hi : w.invoices.find? fun i => i.id == ms.invoice_id with
        | none => simp only [hi] at h; simp at h
        | some inv =>
          simp only [hi] at h
          cases hu : w.users.find? fun u => u.id == inv.userid with
          | none => simp only [hu] at h; simp at h
          | some seller =>
            simp only [hu] at h
            cases hcl : claimMilestone ms.id w with
            | none => simp only [hcl] at h; simp at h
            | some w1 =>
              simp only [hcl] at h
              have hframe := claimMilestone_some_frame ms.id w w1 hcl
              -- the milestone table after the atomic claim has no row left
              -- carrying this release token
              have hms1 : ∀ r ∈ w1.invoice_milestones,
                  (r.release_token == some tok) = false := by
                intro r hr
                rw [hframe.2.2.2.2] at hr
                simp only [updateWhere, List.mem_map] at hr
                obtain ⟨a, hamem, rfl⟩ := hr
                by_cases hpa : (a.id == ms.id && a.status == "completed") = true
                · simp [hpa]
                · simp only [hpa, if_false]
                  by_cases htok : (a.release_token == some tok) = true
                  · exfalso
                    have hmsmem := List.mem_of_find?_eq_some hm
                    have hmstok := List.find?_some hm
                    have hams : a = ms := countP_le_one_unique _ _ huniq hamem
                      hmsmem htok hmstok
                    subst hams
                    have hst : a.status = "completed" := by simpa using hcomp
                    apply hpa
                    simp [hst]
                  · simpa using htok
              -- discharge the remaining lets of the success branch
              cases hrid : seller.referred_by with
              | none =>
                simp only [hrid] at h
                rw [Prod.mk.injEq] at h
                obtain ⟨hw, -⟩ := h
                subst hw
                refine ⟨?_, ?_, ?_⟩
                · split <;>
                    · apply List.find?_eq_none.mpr
                      intro r hr
                      simp [hms1 r hr]
                · split <;> simp [hframe.1]
                · split <;> simp [hframe.2.1]
              | some rid =>
                simp only [hrid] at h
                by_cases he : 0 < (milestoneFees ms.amount
                    (Option.some rid).isSome).2.1
                · simp only [he, if_true] at h
                  rw [Prod.mk.injEq] at h
                  obtain ⟨hw, -⟩ := h
                  subst hw
                  refine ⟨?_, ?_, ?_⟩
                  · split <;>
                      · apply List.find?_eq_none.mpr
                        intro r hr
                        have hr1 : r ∈ w1.invoice_milestones := by
                          simpa [creditReferral_milestones] using hr
                        simp [hms1 r hr1]
                  · split <;> simp [creditReferral_transfers, hframe.1]
                  · split <;> simp [creditReferral_payouts, hframe.2.1]
                · simp only [he, if_false] at h
                  rw [Prod.mk.injEq] at h
                  obtain ⟨hw, -⟩ := h
                  subst hw
                  refine ⟨?_, ?_, ?_⟩
                  · split <;>
                      · apply List.find?_eq_none.mpr
                        intro r hr
                        simp [hms1 r hr]
                  · split <;> simp [hframe.1]
                  · split <;> simp [hframe.2.1]
      · simp [hcomp] at h

/-- C1: for every settlement unit (invoice confirmation code/token or
milestone) the used flag flips false-to-true (milestone: completed-to-
released) at most once, through the single conditional update modelled by
`claimCode` / `claimMilestone`; the gateway transfer is attempted only by the
caller whose update affected a row.  A caller that finds the unit already
claimed aborts with the already-processed error, leaving the world — in
particular the transfer ledger and the payouts table — untouched; a winning
run appends exactly one transfer and one payout, and a later sequential reuse
of the identical credential aborts the same way (for a milestone token the
route answers with the invalid-or-already-used page).  The last two conjuncts
state the concurrent case: in any interleaved trace whose other atomic steps
never resurrect a consumed claim, at most one of the competing conditional
updates succeeds.  (The milestone conjunct assumes the UNIQUE constraint on
release_token: at most one row carries the token.) -/
theorem C1_at_most_once_settlement :
    (∀ (id : Nat) (w : W), claimableCode id w = false →
      executePayout id w = (w, Except.error SettleErr.alreadyProcessed)) ∧
    (∀ (id : Nat) (w w' : W), executePayout id w = (w', Except.ok ()) →
      executePayout id w' = (w', Except.error SettleErr.alreadyProcessed) ∧
      w'.transfers.length = w.transfers.length + 1 ∧
      w'.payouts.length = w.payouts.length + 1) ∧
    (∀ (tok : String) (w w' : W),
      w.invoice_milestones.countP (fun m => m.release_token == some tok) ≤ 1 →
      releaseMilestonePost tok w = (w', MsRes.success) →
      releaseMilestonePost tok w' = (w', MsRes.invalidLink) ∧
      w'.transfers.length = w.transfers.length + 1 ∧
      w'.payouts.length = w.payouts.length + 1) ∧
    (∀ (id : Nat) (es : List Event) (w : W), EnvOk (claimableCode id) es →
      (runClaims (claimCode id) es w).2 ≤ 1) ∧
    (∀ (mid : Nat) (es : List Event) (w : W),
      EnvOk (claimableMilestone mid) es →
      (runClaims (claimMilestone mid) es w).2 ≤ 1) := by
  refine ⟨executePayout_already, ?_, ?_, ?_, ?_⟩
  · intro id w w' h
    obtain ⟨hcl, ht, hp⟩ := executePayout_ok id w w' h
    exact ⟨executePayout_already id w' hcl, ht, hp⟩
  · intro tok w w' huniq h
    obtain ⟨hnone, ht, hp⟩ := releaseMilestonePost_ok tok w w' h huniq
    refine ⟨?_, ht, hp⟩
    simp [releaseMilestonePost, hnone]
  · intro id es w henv
    exact runClaims_le_one (claimCode id) (claimableCode id)
      (fun v v1 hv => claimCode_some_unclaimable id v v1 hv)
      (fun v hv => claimCode_none id v hv) es w henv
  · intro mid es w henv
    exact runClaims_le_one (claimMilestone mid) (claimableMilestone mid)
      (fun v v1 hv => claimMilestone_some_unclaimable mid v v1 hv)
      (fun v hv => claimMilestone_none mid v hv) es w henv

/-- Witness for C1: a concrete world with one unused confirmation code for
invoice 1 and a trace of two competing claim attempts — the hypotheses hold
and at most one claim succeeds. -/
theorem C1_at_most_once_settlement_witness :
    EnvOk (claimableCode 1) [Event.claim, Event.claim] ∧
    (runClaims (claimCode 1) [Event.claim, Event.claim]
      { confirmation_codes :=
          [{ code_id := 1, code := "AB23CD45", verification_token := "t0",
             userid := 7, is_used := false }] }).2 ≤ 1 :=
  ⟨fun f hf => by simp at hf,
   C1_at_most_once_settlement.2.2.2.1 1 [Event.claim, Event.claim] _
     (fun f hf => by simp at hf)⟩

/-- C2: all four money-movement fee blocks (code-based payout, link payout,
milestone payout, dispute seller payout) agree with the spec's fee split:
totalFee is the floor of 2 percent of gross, referralShare the floor of 0.5
percent when a referrer exists and 0 otherwise, platformShare their
difference, and the seller always receives gross minus totalFee; at gross
100000 the split is (2000, 500, 1500, 98000) with a referrer and
(2000, 0, 2000, 98000) without, so the seller receives 98000 in both cases,
the referrer earns 500 and the platform nets 1500 resp. 2000. -/
theorem C2_fee_split :
    (∀ (gross : Nat) (hasReferral : Bool),
      payoutFees gross hasReferral = feeSplitSpec gross hasReferral ∧
      payoutLinkFees gross hasReferral = feeSplitSpec gross hasReferral ∧
      milestoneFees gross hasReferral = feeSplitSpec gross hasReferral ∧
      disputeSellerFees gross hasReferral = feeSplitSpec gross hasReferral) ∧
    (∀ (gross : Nat) (hasReferral : Bool),
      (payoutFees gross hasReferral).1 = gross * 2 / 100 ∧
      (payoutFees gross hasReferral).2.1 =
        (if hasReferral then gross * 5 / 1000 else 0) ∧
      (payoutFees gross hasReferral).2.2.1 =
        (payoutFees gross hasReferral).1 -
          (payoutFees gross hasReferral).2.1 ∧
      (payoutFees gross hasReferral).2.2.2 =
        gross - (payoutFees gross hasReferral).1) ∧
    payoutFees 100000 true = (2000, 500, 1500, 98000) ∧
    payoutFees 100000 false = (2000, 0, 2000, 98000) ∧
    payoutLinkFees 100000 true = (2000, 500, 1500, 98000) ∧
    payoutLinkFees 100000 false = (2000, 0, 2000, 98000) ∧
    milestoneFees 100000 true = (2000, 500, 1500, 98000) ∧
    milestoneFees 100000 false = (2000, 0, 2000, 98000) ∧
    disputeSellerFees 100000 true = (2000, 500, 1500, 98000) ∧
    disputeSellerFees 100000 false = (2000, 0, 2000, 98000) := by
  refine ⟨fun g b => ⟨rfl, rfl, rfl, rfl⟩, fun g b => ⟨rfl, rfl, rfl, rfl⟩,
    ?_, ?_, ?_, ?_, ?_, ?_, ?_, ?_⟩ <;> decide

/-- C8: the two confirmation-page GET handlers perform no state mutation:
for any stored state and any token (and any id segment), the world they
return — every table and the transfer ledger — is exactly the input world;
only the POST executes the claim. -/
theorem C8_get_handlers_pure :
    ∀ (token id : String) (w : W),
      (getVerifyPayout token id w).1 = w ∧
      (getReleaseMilestone token w).1 = w := by
  intro token id w
  constructor
  · unfold getVerifyPayout
    split
    · rfl
    · split
      · rfl
      · rfl
  · unfold getReleaseMilestone
    split
    · rfl
    · split
      · rfl
      · split
        · rfl
        · rfl

theorem find?_updateWhere {α : Type} (p q : α → Bool) (f : α → α)
    (hq : ∀ a, q (f a) = q a) (l : List α) :
    (updateWhere p f l).1.find? q
      = (l.find? q).map fun a => if p a then f a else a := by
  induction l with
  | nil => rfl
  | cons a t ih =>
    have hq' : q (if p a then f a else a) = q a := by
      by_cases hpa : p a = true
      · simp [hpa, hq a]
      · simp only [Bool.not_eq_true] at hpa
        simp [hpa]
    have hcons : (updateWhere p f (a :: t)).1
        = (if p a then f a else a) :: (updateWhere p f t).1 := rfl
    cases hqa : q a with
    | true =>
      rw [hcons, List.find?_cons_of_pos _ (by rw [hq', hqa]),
        List.find?_cons_of_pos _ hqa]
      rfl
    | false =>
      rw [hcons, List.find?_cons_of_neg _ (by simp [hq', hqa]),
        List.find?_cons_of_neg _ (by simp [hqa])]
      exact ih

theorem mem_updateWhere_of_key {α : Type} (p : α → Bool) (f : α → α)
    (l : List α) (r : α) (hr : r ∈ (updateWhere p f l).1) (hp : p r = true) :
    ∃ a, a ∈ l ∧ p a = true ∧ r = f a := by
  simp only [updateWhere, List.mem_map] at hr
  obtain ⟨a, ha, rfl⟩ := hr
  by_cases hpa : p a = true
  · exact ⟨a, ha, hpa, by simp [hpa]⟩
  · simp only [Bool.not_eq_true] at hpa
    rw [hpa, if_neg (by simp)] at hp ⊢
    exact absurd hp (by simp [hpa])

theorem creditReferral_noop (rid sid : Nat) (invNum : String) (g e : Nat)
    (w : W)
    (h : (w.referral_earnings.any fun x => x.invoice_number == invNum)
      = true) :
    creditReferral rid sid invNum g e w = w := by
  simp [creditReferral, h]

/-- C6: the referral-credit step is idempotent per invoice/milestone
identifier: running it twice equals running it once; when an earnings row for
the identifier already exists the step is a no-op; and on a fresh identifier
it writes exactly one earnings row and increments the referrer's balance by
the earning exactly once. -/
theorem C6_referral_credit_idempotent (rid sid : Nat) (invNum : String)
    (g e : Nat) (w : W) :
    creditReferral rid sid invNum g e (creditReferral rid sid invNum g e w)
      = creditReferral rid sid invNum g e w ∧
    ((w.referral_earnings.any fun x => x.invoice_number == invNum) = true →
      creditReferral rid sid invNum g e w = w) ∧
    ((w.referral_earnings.any fun x => x.invoice_number == invNum) = false →
      (creditReferral rid sid invNum g e w).referral_earnings.countP
        (fun x => x.invoice_number == invNum) = 1 ∧
      ∀ u, w.users.find? (fun x => x.id == rid) = some u →
        balanceOf (creditReferral rid sid invNum g e w) rid
          = u.referral_balance + e) := by
  refine ⟨?_, creditReferral_noop rid sid invNum g e w, ?_⟩
  · by_cases h : (w.referral_earnings.any fun x => x.invoice_number == invNum)
        = true
    · rw [creditReferral_noop rid sid invNum g e w h,
        creditReferral_noop rid sid invNum g e w h]
    · simp only [Bool.not_eq_true] at h
      have h2 : ((creditReferral rid sid invNum g e w).referral_earnings.any
          fun x => x.invoice_number == invNum) = true := by
        simp [creditReferral, h]
      exact creditReferral_noop rid sid invNum g e _ h2
  · intro h
    constructor
    · have h0 : w.referral_earnings.countP
          (fun x => x.invoice_number == invNum) = 0 := by
        rw [List.countP_eq_zero]
        intro a ha
        have := List.any_eq_false.mp h a ha
        simpa using this
      have hearn : (creditReferral rid sid invNum g e w).referral_earnings
          = w.referral_earnings ++
            [({ referrer_userid := rid, referred_userid := sid,
                invoice_number := invNum, invoice_amount := g,
                earned_amount := e } : EarningRow)] := by
        simp [creditReferral, h]
      rw [hearn, List.countP_append, h0]
      simp
    · intro u hu
      have husers : (creditReferral rid sid invNum g e w).users
          = (updateWhere (fun x : UserRow => x.id == rid)
              (fun x => { x with referral_balance := x.referral_balance + e })
              w.users).1 := by
        simp [creditReferral, h]
      have hkey := List.find?_some hu
      unfold balanceOf
      rw [husers, find?_updateWhere
        (fun x : UserRow => x.id == rid) (fun x : UserRow => x.id == rid)
        (fun x => { x with referral_balance := x.referral_balance + e })
        (fun a => rfl) w.users, hu]
      have hid : u.id = rid := by simpa using hkey
      simp [hid]

/-- Witness for C6: a fresh identifier and a concrete referrer with balance
100 — the step credits the 500 XAF earning exactly once. -/
theorem C6_referral_credit_idempotent_witness :
    ((({ users :=
          [{ id := 3, phone := "237670000002", referred_by := none,
             referral_balance := 100 }] } : W).referral_earnings.any
       fun x => x.invoice_number == "INV-1") = false) ∧
    balanceOf (creditReferral 3 5 "INV-1" 100000 500
      { users :=
          [{ id := 3, phone := "237670000002", referred_by := none,
             referral_balance := 100 }] }) 3 = 600 := by
  refine ⟨by decide, ?_⟩
  have h := (C6_referral_credit_idempotent 3 5 "INV-1" 100000 500
    { users :=
        [{ id := 3, phone := "237670000002", referred_by := none,
           referral_balance := 100 }] }).2.2 (by decide)
  have h2 := h.2 { id := 3, phone := "237670000002", referred_by := none,
                   referral_balance := 100 } (by decide)
  simpa using h2

/-- C5: resolving a dispute in the buyer's favor refunds the buyer's original
payment number exactly gross minus the floor of 2 percent of gross (the buyer
bears the whole fee), marks the invoice refunded and the dispute
resolved_buyer, and appends a payout row with the distinguishing method label
Refund to Buyer; at gross 100000 the buyer receives 98000 and the platform
nets 2000. -/
theorem C5_buyer_refund (w : W) (tok : String) (d : DisputeRow)
    (inv : InvoiceRow) (buyer : GuestRow) (momo : String)
    (hd : w.disputes.find? (fun x => x.admin_token == tok) = some d)
    (hopen : d.status = "open")
    (hinv : w.invoices.find? (fun i => i.invoicenumber == d.invoicenumber)
      = some inv)
    (hg : w.guests.find? (fun g => g.invoicenumber == inv.invoicenumber)
      = some buyer)
    (hmomo : buyer.momo_number = some momo) :
    (resolveDispute tok "buyer" w).2 = true ∧
    (resolveDispute tok "buyer" w).1.transfers = w.transfers ++
      [{ amount := ((inv.amount - inv.amount * 2 / 100 : Nat) : Int),
         dest := momo, reference := "refund-" ++ inv.invoicenumber }] ∧
    (resolveDispute tok "buyer" w).1.payouts = w.payouts ++
      [{ userid := inv.userid, amount := inv.amount - inv.amount * 2 / 100,
         method := "Refund to Buyer", status := "refunded",
         invoice_id := inv.id, invoice_number := inv.invoicenumber }] ∧
    (∀ i ∈ (resolveDispute tok "buyer" w).1.invoices,
      i.id = inv.id → i.status = "refunded") ∧
    (∀ x ∈ (resolveDispute tok "buyer" w).1.disputes,
      x.admin_token = tok → x.status = "resolved_buyer") ∧
    (inv.amount = 100000 →
      inv.amount - inv.amount * 2 / 100 = 98000 ∧
      inv.amount * 2 / 100 = 2000) := by
  have hbs : (("buyer" : String) == "seller") = false := by decide
  have hbb : (("buyer" : String) == "buyer") = true := by decide
  have hres : resolveDispute tok "buyer" w = resolveBuyerRest d tok w := by
    unfold resolveDispute resolveRead
    simp [hd, hopen, hbs, hbb]
  rw [hres]
  unfold resolveBuyerRest
  simp only [hinv, hg, hmomo]
  refine ⟨trivial, trivial, trivial, ?_, ?_, ?_⟩
  · intro i hi hid
    obtain ⟨a, ha, hpa, rfl⟩ := mem_updateWhere_of_key
      (fun i : InvoiceRow => i.id == inv.id)
      (fun i => { i with status := "refunded" }) w.invoices i hi
      (by simp [hid])
    rfl
  · intro x hx hxtok
    obtain ⟨a, ha, hpa, rfl⟩ := mem_updateWhere_of_key
      (fun x : DisputeRow => x.admin_token == tok)
      (fun x => { x with status := "resolved_buyer" }) w.disputes x hx
      (by simp [hxtok])
    rfl
  · intro h100
    rw [h100]
    exact ⟨by decide, by decide⟩

/-- Witness for C5: a concrete open dispute over a 100000 XAF invoice with a
buyer MoMo number on file — the refund transfer of 98000 XAF is issued. -/
theorem C5_buyer_refund_witness :
    (({ disputes :=
          [{ admin_token := "ADM", invoicenumber := "INV-1",
             status := "open" }],
        invoices :=
          [{ id := 1, invoicenumber := "INV-1", userid := 7,
             amount := 100000, status := "delivered" }],
        guests :=
          [{ invoicenumber := "INV-1", email := "buyer@example.com",
             momo_number := some "237650000001",
             chat_token := none }] } : W).disputes.find?
        (fun x => x.admin_token == "ADM")
      = some { admin_token := "ADM", invoicenumber := "INV-1",
               status := "open" }) ∧
    (resolveDispute "ADM" "buyer"
      { disputes :=
          [{ admin_token := "ADM", invoicenumber := "INV-1",
             status := "open" }],
        invoices :=
          [{ id := 1, invoicenumber := "INV-1", userid := 7,
             amount := 100000, status := "delivered" }],
        guests :=
          [{ invoicenumber := "INV-1", email := "buyer@example.com",
             momo_number := some "237650000001",
             chat_token := none }] }).1.transfers =
      [{ amount := 98000, dest := "237650000001",
         reference := "refund-INV-1" }] := by
  refine ⟨by decide, ?_⟩
  have h := (C5_buyer_refund
    { disputes :=
        [{ admin_token := "ADM", invoicenumber := "INV-1",
           status := "open" }],
      invoices :=
        [{ id := 1, invoicenumber := "INV-1", userid := 7,
           amount := 100000, status := "delivered" }],
      guests :=
        [{ invoicenumber := "INV-1", email := "buyer@example.com",
           momo_number := some "237650000001",
           chat_token := none }] }
    "ADM"
    { admin_token := "ADM", invoicenumber := "INV-1", status := "open" }
    { id := 1, invoicenumber := "INV-1", userid := 7, amount := 100000,
      status := "delivered" }
    { invoicenumber := "INV-1", email := "buyer@example.com",
      momo_number := some "237650000001", chat_token := none }
    "237650000001" (by decide) rfl (by decide) (by decide) rfl).2.1
  simpa using h

theorem psp_contains (ref code tok chatTok : String) (w : W) :
    (processSuccessfulPayment ref code tok chatTok
      w).1.processed_payments.contains ref = true := by
  unfold processSuccessfulPayment
  by_cases h : w.processed_payments.contains ref = true
  · have h' : ref ∈ w.processed_payments := by simpa using h
    simp [h']
  · simp only [Bool.not_eq_true] at h
    have h' : ¬ ref ∈ w.processed_payments := by simpa using h
    simp only [h, h', Bool.false_eq_true, if_false, if_neg]
    split
    · simp
    · split
      · simp
      · split
        · simp
        · split <;> simp

/-- C3: `processSuccessfulPayment` is idempotent per payment reference.  A
second call on the world produced by a first call (with any fresh credentials)
returns already_done and changes nothing at all — the atomic
conflict-ignoring marker insert is the single gate.  And a first call on an
unclaimed reference with a matching payment, an existing invoice and no
pre-existing confirmation code mints exactly one confirmation code/token row
for the invoice and moves every invoice row with that id to status paid. -/
theorem C3_payment_processing_idempotent :
    (∀ (w : W) (ref c t ct c' t' ct' : String),
      processSuccessfulPayment ref c' t' ct'
          (processSuccessfulPayment ref c t ct w).1
        = ((processSuccessfulPayment ref c t ct w).1,
           PayRes.already_done)) ∧
    (∀ (w : W) (ref c t ct : String) (payment : PaymentRow)
        (inv : InvoiceRow),
      w.processed_payments.contains ref = false →
      w.payments.find? (fun p => p.providerpaymentid == ref) = some payment →
      (w.confirmation_codes.any fun cr => cr.code_id == payment.invoiceid)
        = false →
      w.invoices.find? (fun i => i.id == payment.invoiceid) = some inv →
      (processSuccessfulPayment ref c t ct w).2 = PayRes.done ∧
      (processSuccessfulPayment ref c t ct w).1.confirmation_codes.countP
        (fun cr => cr.code_id == payment.invoiceid) = 1 ∧
      (∀ i ∈ (processSuccessfulPayment ref c t ct w).1.invoices,
        i.id = payment.invoiceid → i.status = "paid")) := by
  constructor
  · intro w ref c t ct c' t' ct'
    have h := psp_contains ref c t ct w
    generalize hw1 : (processSuccessfulPayment ref c t ct w).1 = w1 at h ⊢
    have h' : ref ∈ w1.processed_payments := by simpa using h
    unfold processSuccessfulPayment
    simp [h']
  · intro w ref c t ct payment inv h0 hp hcode hinv
    have hcount : w.confirmation_codes.countP
        (fun cr => cr.code_id == payment.invoiceid) = 0 := by
      rw [List.countP_eq_zero]
      intro a ha
      have := List.any_eq_false.mp hcode a ha
      simpa using this
    have hkey := List.find?_some hinv
    unfold processSuccessfulPayment
    simp only [h0, Bool.false_eq_true, if_false, hp, hcode]
    rw [find?_updateWhere
      (fun i : InvoiceRow => i.id == payment.invoiceid)
      (fun i : InvoiceRow => i.id == payment.invoiceid)
      (fun i => { i with status := "paid" }) (fun a => rfl) w.invoices, hinv]
    simp only [Option.map_some', hkey, if_true]
    refine ⟨?_, ?_, ?_⟩
    · trivial
    · split <;>
        · rw [show ∀ (l : List CodeRow) (r : CodeRow),
              (l ++ [r]).countP (fun cr => cr.code_id == payment.invoiceid)
                = l.countP (fun cr => cr.code_id == payment.invoiceid)
                  + [r].countP (fun cr => cr.code_id == payment.invoiceid)
              from fun l r => List.countP_append _ _ _]
          rw [hcount]
          simp
    · intro i hi hid
      have hi' : i ∈ (updateWhere
          (fun i : InvoiceRow => i.id == payment.invoiceid)
          (fun i => { i with status := "paid" }) w.invoices).1 := by
        revert hi
        split <;> (intro hi; simpa using hi)
      obtain ⟨a, ha, hpa, rfl⟩ := mem_updateWhere_of_key
        (fun i : InvoiceRow => i.id == payment.invoiceid)
        (fun i => { i with status := "paid" }) w.invoices i hi'
        (by simp [hid])
      rfl

/-- Witness for C3: a concrete unclaimed payment reference over a pending
invoice — the first call mints exactly one confirmation-code row. -/
theorem C3_payment_processing_idempotent_witness :
    (({ payments :=
          [{ invoiceid := 1, providerpaymentid := "UUID-1",
             amount := 100000, status := "pending" }],
        invoices :=
          [{ id := 1, invoicenumber := "INV-1", userid := 7,
             amount := 100000,
             status := "pending" }] } : W).processed_payments.contains
        "UUID-1" = false) ∧
    (processSuccessfulPayment "UUID-1" "AB23CD45" "t0" "t1"
      { payments :=
          [{ invoiceid := 1, providerpaymentid := "UUID-1",
             amount := 100000, status := "pending" }],
        invoices :=
          [{ id := 1, invoicenumber := "INV-1", userid := 7,
             amount := 100000,
             status := "pending" }] }).1.confirmation_codes.countP
      (fun cr => cr.code_id == 1) = 1 := by
  refine ⟨by decide, ?_⟩
  have h := (C3_payment_processing_idempotent.2
    { payments :=
        [{ invoiceid := 1, providerpaymentid := "UUID-1",
           amount := 100000, status := "pending" }],
      invoices :=
        [{ id := 1, invoicenumber := "INV-1", userid := 7,
           amount := 100000, status := "pending" }] }
    "UUID-1" "AB23CD45" "t0" "t1"
    { invoiceid := 1, providerpaymentid := "UUID-1", amount := 100000,
      status := "pending" }
    { id := 1, invoicenumber := "INV-1", userid := 7, amount := 100000,
      status := "pending" }
    (by decide) (by decide) (by decide) (by decide)).2.1
  simpa using h

/-- Counterexample to C7 as stated: milestone 2 of invoice 1 is pending and
milestone 1 is already released, yet marking milestone 2 complete fails —
the buyer has not paid, so there is no guest record and the handler answers
with the buyer-information-not-found error instead of succeeding. -/
theorem C7_counterexample :
    completeMilestone 2 "tk1"
      { invoices :=
          [{ id := 1, invoicenumber := "INV-1", userid := 7,
             amount := 100000, status := "pending" }],
        invoice_milestones :=
          [{ id := 1, invoice_id := 1, invoice_number := "INV-1",
             milestone_number := 1, label := "Phase 1", amount := 50000,
             status := "released", release_token := none },
           { id := 2, invoice_id := 1, invoice_number := "INV-1",
             milestone_number := 2, label := "Phase 2", amount := 50000,
             status := "pending", release_token := none }] }
      = ({ invoices :=
             [{ id := 1, invoicenumber := "INV-1", userid := 7,
                amount := 100000, status := "pending" }],
           invoice_milestones :=
             [{ id := 1, invoice_id := 1, invoice_number := "INV-1",
                milestone_number := 1, label := "Phase 1", amount := 50000,
                status := "released", release_token := none },
              { id := 2, invoice_id := 1, invoice_number := "INV-1",
                milestone_number := 2, label := "Phase 2", amount := 50000,
                status := "pending", release_token := none }] },
         CompleteRes.noBuyer) := by decide

/-- C7 (amended): for a pending milestone with sequence number greater than 1,
mark-complete fails with the precondition error and mutates nothing whenever
some lower-numbered milestone of the invoice is not yet released; and once no
lower-numbered milestone is unreleased, mark-complete succeeds — provided the
parent invoice row and the buyer's guest record exist (i.e. the buyer has
paid) — flipping exactly the addressed milestone to completed with the fresh
release token. -/
theorem C7_milestone_ordering (w : W) (mid : Nat) (newTok : String)
    (ms : MilestoneRow)
    (hms : w.invoice_milestones.find? (fun m => m.id == mid) = some ms)
    (hpend : ms.status = "pending") :
    ((ms.milestone_number > 1 &&
        (w.invoice_milestones.any fun m =>
          m.invoice_id == ms.invoice_id &&
          m.milestone_number < ms.milestone_number &&
          !(m.status == "released"))) = true →
      completeMilestone mid newTok w = (w, CompleteRes.prevNotReleased)) ∧
    ((ms.milestone_number > 1 &&
        (w.invoice_milestones.any fun m =>
          m.invoice_id == ms.invoice_id &&
          m.milestone_number < ms.milestone_number &&
          !(m.status == "released"))) = false →
      ∀ (inv : InvoiceRow) (guest : GuestRow),
        w.invoices.find? (fun i => i.id == ms.invoice_id) = some inv →
        w.guests.find? (fun g => g.invoicenumber == ms.invoice_number)
          = some guest →
        (completeMilestone mid newTok w).2 = CompleteRes.ok ∧
        (∀ m ∈ (completeMilestone mid newTok w).1.invoice_milestones,
          m.id = mid →
            m.status = "completed" ∧ m.release_token = some newTok)) := by
  have hpend' : (!(ms.status == "pending")) = false := by simp [hpend]
  constructor
  · intro hprev
    unfold completeMilestone
    simp only [hms, hpend', Bool.false_eq_true, if_false, hprev, if_true]
  · intro hprev inv guest hinv hguest
    unfold completeMilestone
    simp only [hms, hpend', Bool.false_eq_true, if_false, hprev, hinv, hguest]
    refine ⟨trivial, ?_⟩
    intro m hm hid
    obtain ⟨a, ha, hpa, rfl⟩ := mem_updateWhere_of_key
      (fun m : MilestoneRow => m.id == mid)
      (fun m => { m with status := "completed",
                         release_token := some newTok })
      w.invoice_milestones m hm (by simp [hid])
    exact ⟨rfl, rfl⟩

/-- Witness for C7's amended theorem: milestone 1 released, milestone 2
pending, invoice and buyer present — marking milestone 2 complete succeeds. -/
theorem C7_milestone_ordering_witness :
    (({ invoices :=
          [{ id := 1, invoicenumber := "INV-1", userid := 7,
             amount := 100000, status := "paid" }],
        guests :=
          [{ invoicenumber := "INV-1", email := "buyer@example.com",
             momo_number := some "237650000001", chat_token := none }],
        invoice_milestones :=
          [{ id := 1, invoice_id := 1, invoice_number := "INV-1",
             milestone_number := 1, label := "Phase 1", amount := 50000,
             status := "released", release_token := none },
           { id := 2, invoice_id := 1, invoice_number := "INV-1",
             milestone_number := 2, label := "Phase 2", amount := 50000,
             status := "pending",
             release_token := none }] } : W).invoice_milestones.find?
        (fun m => m.id == 2)
      = some { id := 2, invoice_id := 1, invoice_number := "INV-1",
               milestone_number := 2, label := "Phase 2", amount := 50000,
               status := "pending", release_token := none }) ∧
    (completeMilestone 2 "tk1"
      { invoices :=
          [{ id := 1, invoicenumber := "INV-1", userid := 7,
             amount := 100000, status := "paid" }],
        guests :=
          [{ invoicenumber := "INV-1", email := "buyer@example.com",
             momo_number := some "237650000001", chat_token := none }],
        invoice_milestones :=
          [{ id := 1, invoice_id := 1, invoice_number := "INV-1",
             milestone_number := 1, label := "Phase 1", amount := 50000,
             status := "released", release_token := none },
           { id := 2, invoice_id := 1, invoice_number := "INV-1",
             milestone_number := 2, label := "Phase 2", amount := 50000,
             status := "pending", release_token := none }] }).2
      = CompleteRes.ok := by
  refine ⟨by decide, ?_⟩
  exact ((C7_milestone_ordering
    { invoices :=
        [{ id := 1, invoicenumber := "INV-1", userid := 7,
           amount := 100000, status := "paid" }],
      guests :=
        [{ invoicenumber := "INV-1", email := "buyer@example.com",
           momo_number := some "237650000001", chat_token := none }],
      invoice_milestones :=
        [{ id := 1, invoice_id := 1, invoice_number := "INV-1",
           milestone_number := 1, label := "Phase 1", amount := 50000,
           status := "released", release_token := none },
         { id := 2, invoice_id := 1, invoice_number := "INV-1",
           milestone_number := 2, label := "Phase 2", amount := 50000,
           status := "pending", release_token := none }] }
    2 "tk1"
    { id := 2, invoice_id := 1, invoice_number := "INV-1",
      milestone_number := 2, label := "Phase 2", amount := 50000,
      status := "pending", release_token := none }
    (by decide) rfl).2 (by decide)
    { id := 1, invoicenumber := "INV-1", userid := 7, amount := 100000,
      status := "paid" }
    { invoicenumber := "INV-1", email := "buyer@example.com",
      momo_number := some "237650000001", chat_token := none }
    (by decide) (by decide)).1

/-- Counterexample to C9 as stated: the same release request (wrong
credential, invoice number INV-9) produces a 404 does-not-exist response when
the invoice is absent, but a 401 wrong-code response when the invoice exists
with its payment confirmed — the two rejections are distinguishable, so the
release operation does reveal whether the invoice exists. -/
theorem C9_counterexample :
    (releaseFunds "ZZZZZZZZ" "INV-9" {}).2
      ≠ (releaseFunds "ZZZZZZZZ" "INV-9"
        { invoices :=
            [{ id := 1, invoicenumber := "INV-9", userid := 7,
               amount := 100000, status := "paid" }],
          payments :=
            [{ invoiceid := 1, providerpaymentid := "UUID-1",
               amount := 100000, status := "paid" }],
          confirmation_codes :=
            [{ code_id := 1, code := "AB23CD45", verification_token := "t0",
               userid := 7, is_used := false }] }).2 := by decide

/-- C9 (amended): the wrong-credential rejection of `POST /release-funds` is
a fixed generic 401 message that reveals neither the correct code nor any
invoice data; however, the route answers a nonexistent invoice with a
distinct 404 does-not-exist message, so the two rejections do distinguish
invoice existence (the spec's no-enumeration property does not hold on this
route). -/
theorem C9_error_disclosure (w : W) (code invNum : String) :
    (w.invoices.find? (fun i => i.invoicenumber == invNum) = none →
      releaseFunds code invNum w
        = (w, 404, "Invoice " ++ invNum ++ " does not exist.")) ∧
    (∀ (inv : InvoiceRow) (payment : PaymentRow) (codeRow : CodeRow),
      w.invoices.find? (fun i => i.invoicenumber == invNum) = some inv →
      inv.status ≠ "completed" →
      w.payments.find? (fun p => p.invoiceid == inv.id) = some payment →
      payment.status = "paid" →
      w.confirmation_codes.find? (fun c => c.code_id == inv.id)
        = some codeRow →
      codeRow.is_used = false →
      codeRow.code ≠ code →
      releaseFunds code invNum w
        = (w, 401,
          "The code you entered is incorrect. Please ask the buyer for their code.")) := by
  constructor
  · intro h
    unfold releaseFunds
    simp only [h]
  · intro inv payment codeRow hinv hst hpay hpaid hcode hused hwrong
    have hst' : (inv.status == "completed") = false := by
      simpa using hst
    have hpaid' : (!(payment.status == "paid")) = false := by simp [hpaid]
    have hwrong' : (!(codeRow.code == code)) = true := by
      simp only [Bool.not_eq_true']
      simpa using hwrong
    unfold releaseFunds
    simp only [hinv, hst', Bool.false_eq_true, if_false, hpay, hpaid',
      hcode, hused, hwrong', if_true]

/-- Witness for C9's amended theorem: a concrete paid invoice with an unused
code row and a wrong submitted code — the generic 401 rejection is issued. -/
theorem C9_error_disclosure_witness :
    (({ invoices :=
          [{ id := 1, invoicenumber := "INV-9", userid := 7,
             amount := 100000, status := "paid" }],
        payments :=
          [{ invoiceid := 1, providerpaymentid := "UUID-1",
             amount := 100000, status := "paid" }],
        confirmation_codes :=
          [{ code_id := 1, code := "AB23CD45", verification_token := "t0",
             userid := 7,
             is_used := false }] } : W).invoices.find?
        (fun i => i.invoicenumber == "INV-9")
      = some { id := 1, invoicenumber := "INV-9", userid := 7,
               amount := 100000, status := "paid" }) ∧
    releaseFunds "ZZZZZZZZ" "INV-9"
      { invoices :=
          [{ id := 1, invoicenumber := "INV-9", userid := 7,
             amount := 100000, status := "paid" }],
        payments :=
          [{ invoiceid := 1, providerpaymentid := "UUID-1",
             amount := 100000, status := "paid" }],
        confirmation_codes :=
          [{ code_id := 1, code := "AB23CD45", verification_token := "t0",
             userid := 7, is_used := false }] }
      = ({ invoices :=
             [{ id := 1, invoicenumber := "INV-9", userid := 7,
                amount := 100000, status := "paid" }],
           payments :=
             [{ invoiceid := 1, providerpaymentid := "UUID-1",
                amount := 100000, status := "paid" }],
           confirmation_codes :=
             [{ code_id := 1, code := "AB23CD45", verification_token := "t0",
                userid := 7, is_used := false }] }, 401,
         "The code you entered is incorrect. Please ask the buyer for their code.") := by
  refine ⟨by decide, ?_⟩
  exact (C9_error_disclosure
    { invoices :=
        [{ id := 1, invoicenumber := "INV-9", userid := 7,
           amount := 100000, status := "paid" }],
      payments :=
        [{ invoiceid := 1, providerpaymentid := "UUID-1",
           amount := 100000, status := "paid" }],
      confirmation_codes :=
        [{ code_id := 1, code := "AB23CD45", verification_token := "t0",
           userid := 7, is_used := false }] }
    "ZZZZZZZZ" "INV-9").2
    { id := 1, invoicenumber := "INV-9", userid := 7, amount := 100000,
      status := "paid" }
    { invoiceid := 1, providerpaymentid := "UUID-1", amount := 100000,
      status := "paid" }
    { code_id := 1, code := "AB23CD45", verification_token := "t0",
      userid := 7, is_used := false }
    (by decide) (by decide) (by decide) rfl (by decide) rfl (by decide)

/-- Counterexample to C10 as stated: at most one pending withdrawal per user
is not guaranteed.  The pending row is inserted by a separate statement after
the conditional deduction, so two concurrent requests (balance 5000, two
withdrawals of 2000) can interleave deduct-deduct-insert-insert: both
conditional updates succeed — neither sees a pending row yet — and the user
ends up with two pending withdrawals. -/
theorem C10_counterexample :
    ((withdrawDeduct 9 2000
        { users :=
            [{ id := 9, phone := "237670000009", referred_by := none,
               referral_balance := 5000 }] }).bind fun w1 =>
      (withdrawDeduct 9 2000 w1).map fun w2 =>
        pendingCount (withdrawInsertPending 31 9 2000 "237670000009"
          (withdrawInsertPending 30 9 2000 "237670000009" w2)) 9)
      = some 2 := by decide

theorem withdraw_fail_shape (userId : Nat) (amount : Int) (momo : String)
    (wid : Nat) (w w1 : W)
    (hded : withdrawDeduct userId amount w = some w1) :
    (withdraw userId amount momo wid false w).1.users
      = (updateWhere (fun x : UserRow => x.id == userId)
          (fun x => { x with referral_balance := x.referral_balance + amount })
          w1.users).1 ∧
    (withdraw userId amount momo wid false w).1.referral_withdrawals
      = (updateWhere (fun r : WithdrawalRow => r.id == wid)
          (fun r => { r with status := "failed" })
          (w1.referral_withdrawals ++
            [({ id := wid, userid := userId, amount := amount,
                momo_number := momo,
                status := "pending" } : WithdrawalRow)])).1 ∧
    (withdraw userId amount momo wid false w).2 = false := by
  unfold withdraw withdrawInsertPending
  simp only [hded, Bool.false_eq_true, if_false]
  exact ⟨trivial, trivial, trivial⟩

/-- C10 (amended): the conditional deduction keeps every balance nonnegative
and is rejected outright while a pending withdrawal exists at the moment the
update runs; and when the gateway transfer fails, the deducted amount is
added back and the withdrawal row is marked failed, leaving the net balance
unchanged.  (At most one pending withdrawal per user does NOT hold under
concurrency: the pending insert is a separate later statement — see the
counterexample.) -/
theorem C10_withdrawal (userId : Nat) (amount : Int) (momo : String)
    (wid : Nat) (w : W) :
    ((∀ v ∈ w.users, 0 ≤ v.referral_balance) →
      ∀ w1, withdrawDeduct userId amount w = some w1 →
        ∀ v ∈ w1.users, 0 ≤ v.referral_balance) ∧
    ((w.referral_withdrawals.any fun r =>
        r.userid == userId && r.status == "pending") = true →
      withdrawDeduct userId amount w = none) ∧
    (∀ u, w.users.find? (fun x => x.id == userId) = some u →
      amount ≤ u.referral_balance →
      (w.referral_withdrawals.any fun r =>
        r.userid == userId && r.status == "pending") = false →
      (withdraw userId amount momo wid false w).2 = false ∧
      balanceOf (withdraw userId amount momo wid false w).1 userId
        = u.referral_balance ∧
      (∀ r ∈ (withdraw userId amount momo wid
          false w).1.referral_withdrawals,
        r.id = wid → r.status = "failed")) := by
  refine ⟨?_, ?_, ?_⟩
  · intro hnn w1 h1 v hv
    unfold withdrawDeduct at h1
    by_cases h0 : (updateWhere (fun x : UserRow =>
        x.id == userId && decide (amount ≤ x.referral_balance) &&
        !(w.referral_withdrawals.any fun r =>
          r.userid == userId && r.status == "pending"))
        (fun x => { x with referral_balance := x.referral_balance - amount })
        w.users).2 == 0
    · simp [h0] at h1
    · simp only [h0, if_false] at h1
      cases h1
      simp only [updateWhere, List.mem_map] at hv
      obtain ⟨a, ha, rfl⟩ := hv
      by_cases hpa : (a.id == userId && decide (amount ≤ a.referral_balance)
          && !(w.referral_withdrawals.any fun r =>
            r.userid == userId && r.status == "pending")) = true
      · rw [if_pos hpa]
        have hle : amount ≤ a.referral_balance := by
          have := hpa
          simp only [Bool.and_eq_true, decide_eq_true_eq] at this
          exact this.1.2
        simpa using Int.sub_nonneg.mpr hle
      · rw [if_neg hpa]
        exact hnn a ha
  · intro hpend
    unfold withdrawDeduct
    have h0 : w.users.countP (fun x : UserRow =>
        x.id == userId && decide (amount ≤ x.referral_balance) &&
        !(w.referral_withdrawals.any fun r =>
          r.userid == userId && r.status == "pending")) = 0 := by
      rw [List.countP_eq_zero]
      intro a ha
      simp [hpend]
    simp [updateWhere, h0]
  · intro u hu hbal hnp
    have hkey := List.find?_some hu
    have hp1u : ((u.id == userId && decide (amount ≤ u.referral_balance) &&
        !(w.referral_withdrawals.any fun r =>
          r.userid == userId && r.status == "pending"))) = true := by
      simp [hkey, hnp, decide_eq_true_eq, hbal]
    have hne : (w.users.countP (fun x : UserRow =>
        x.id == userId && decide (amount ≤ x.referral_balance) &&
        !(w.referral_withdrawals.any fun r =>
          r.userid == userId && r.status == "pending")) == 0) = false := by
      have hgt : 0 < w.users.countP (fun x : UserRow =>
          x.id == userId && decide (amount ≤ x.referral_balance) &&
          !(w.referral_withdrawals.any fun r =>
            r.userid == userId && r.status == "pending")) := by
        rw [List.countP_pos_iff]
        exact ⟨u, List.mem_of_find?_eq_some hu, hp1u⟩
      rw [beq_eq_false_iff_ne]
      omega
    have hded : withdrawDeduct userId amount w
        = some { w with users := (updateWhere (fun x : UserRow =>
            x.id == userId && decide (amount ≤ x.referral_balance) &&
            !(w.referral_withdrawals.any fun r =>
              r.userid == userId && r.status == "pending"))
            (fun x =>
              { x with referral_balance := x.referral_balance - amount })
            w.users).1 } := by
      unfold withdrawDeduct
      simp only [updateWhere] at hne ⊢
      simp only [hne, Bool.false_eq_true, if_false]
    obtain ⟨husers, hwds, hres⟩ :=
      withdraw_fail_shape userId amount momo wid w _ hded
    refine ⟨hres, ?_, ?_⟩
    · unfold balanceOf
      rw [husers]
      rw [find?_updateWhere _ (fun x : UserRow => x.id == userId)
        (fun x => { x with referral_balance := x.referral_balance + amount })
        (fun a => rfl)]
      dsimp only
      rw [find?_updateWhere _ (fun x : UserRow => x.id == userId)
        (fun x => { x with referral_balance := x.referral_balance - amount })
        (fun a => rfl), hu]
      simp only [Option.map_some']
      rw [if_pos hp1u]
      split
      · show u.referral_balance - amount + amount = u.referral_balance
        omega
      · rename_i hcond
        exact absurd hkey hcond
    · intro r hr hrid
      rw [hwds] at hr
      obtain ⟨a, ha, hpa, rfl⟩ := mem_updateWhere_of_key
        (fun r : WithdrawalRow => r.id == wid)
        (fun r => { r with status := "failed" }) _ r hr (by simp [hrid])
      rfl

/-- Witness for C10's amended theorem: user 9 with balance 5000 withdraws
2000, the gateway fails, and the balance is back at 5000. -/
theorem C10_withdrawal_witness :
    (({ users :=
          [{ id := 9, phone := "237670000009", referred_by := none,
             referral_balance := 5000 }] } : W).users.find?
        (fun x => x.id == 9)
      = some { id := 9, phone := "237670000009", referred_by := none,
               referral_balance := 5000 }) ∧
    balanceOf (withdraw 9 2000 "237670000009" 30 false
      { users :=
          [{ id := 9, phone := "237670000009", referred_by := none,
             referral_balance := 5000 }] }).1 9 = 5000 := by
  refine ⟨by decide, ?_⟩
  have h := ((C10_withdrawal 9 2000 "237670000009" 30
    { users :=
        [{ id := 9, phone := "237670000009", referred_by := none,
           referral_balance := 5000 }] }).2.2
    { id := 9, phone := "237670000009", referred_by := none,
      referral_balance := 5000 }
    (by decide) (by decide) (by decide)).2.1
  simpa using h

/-- C4: the dispute resolution code does NOT gate the transfer with an atomic
conditional update on the dispute status.  The status is checked by a plain
read (`resolveRead`), the transfer is issued first, and the later dispute
UPDATE is keyed on the admin token alone.  Consequently two concurrent
resolve requests that both pass the read before either writes each execute
the full seller path: on a concrete open dispute the interleaved execution
issues two gateway transfers and records two payout rows, even though the
first write had already moved the dispute to resolved_seller — refuting the
claimed at-most-one-transfer guarantee for disputes. -/
theorem C4_dispute_resolve_race :
    (resolveRead "ADM"
      { disputes :=
          [{ admin_token := "ADM", invoicenumber := "INV-1",
             status := "open" }],
        invoices :=
          [{ id := 1, invoicenumber := "INV-1", userid := 7,
             amount := 100000, status := "delivered" }],
        users :=
          [{ id := 7, phone := "237670000001", referred_by := none,
             referral_balance := 0 }] }
      = some { admin_token := "ADM", invoicenumber := "INV-1",
               status := "open" }) ∧
    ((resolveSellerRest
        { admin_token := "ADM", invoicenumber := "INV-1", status := "open" }
        "ADM"
        { disputes :=
            [{ admin_token := "ADM", invoicenumber := "INV-1",
               status := "open" }],
          invoices :=
            [{ id := 1, invoicenumber := "INV-1", userid := 7,
               amount := 100000, status := "delivered" }],
          users :=
            [{ id := 7, phone := "237670000001", referred_by := none,
               referral_balance := 0 }] }).1.disputes
      = [{ admin_token := "ADM", invoicenumber := "INV-1",
           status := "resolved_seller" }]) ∧
    ((resolveSellerRest
        { admin_token := "ADM", invoicenumber := "INV-1", status := "open" }
        "ADM"
        ((resolveSellerRest
          { admin_token := "ADM", invoicenumber := "INV-1", status := "open" }
          "ADM"
          { disputes :=
              [{ admin_token := "ADM", invoicenumber := "INV-1",
                 status := "open" }],
            invoices :=
              [{ id := 1, invoicenumber := "INV-1", userid := 7,
                 amount := 100000, status := "delivered" }],
            users :=
              [{ id := 7, phone := "237670000001", referred_by := none,
                 referral_balance := 0 }] }).1)).2 = true) ∧
    ((resolveSellerRest
        { admin_token := "ADM", invoicenumber := "INV-1", status := "open" }
        "ADM"
        ((resolveSellerRest
          { admin_token := "ADM", invoicenumber := "INV-1", status := "open" }
          "ADM"
          { disputes :=
              [{ admin_token := "ADM", invoicenumber := "INV-1",
                 status := "open" }],
            invoices :=
              [{ id := 1, invoicenumber := "INV-1", userid := 7,
                 amount := 100000, status := "delivered" }],
            users :=
              [{ id := 7, phone := "237670000001", referred_by := none,
                 referral_balance := 0 }] }).1)).1.transfers.length = 2) ∧
    ((resolveSellerRest
        { admin_token := "ADM", invoicenumber := "INV-1", status := "open" }
        "ADM"
        ((resolveSellerRest
          { admin_token := "ADM", invoicenumber := "INV-1", status := "open" }
          "ADM"
          { disputes :=
              [{ admin_token := "ADM", invoicenumber := "INV-1",
                 status := "open" }],
            invoices :=
              [{ id := 1, invoicenumber := "INV-1", userid := 7,
                 amount := 100000, status := "delivered" }],
            users :=
              [{ id := 7, phone := "237670000001", referred_by := none,
                 referral_balance := 0 }] }).1)).1.payouts.length = 2) := by
  refine ⟨by decide, by decide, by decide, by decide, by decide⟩
